import Mathlib

/-!
Shallow embedding of the checkout-funnel dashboard (`app.py`): the five
catalog SQL queries over `PROD__US.DBT_ANALYTICS.CHECKOUT_FUNNEL_V5`,
the `st.cache_data`-backed query runner, the pandas view transforms
(column select/rename, "No Score" filters, melt, pivot/reindex) and the
summary-metric computation.

SQL numeric semantics are modelled over `ℚ` with exact division;
`ROUND` (Snowflake: half away from zero, here applied to nonnegative
values only) is `round` (half up), and the Python built-in `round`
(half to even) is modelled separately.  SQL `NULL` is `Option.none`.
-/

/-- SQL `ROUND(x, s)` at scale `s`: half away from zero, which on the
nonnegative values produced by these queries agrees with half up. -/
def roundSql (s : Nat) (x : ℚ) : ℚ := (round (x * 10 ^ s) : ℚ) / 10 ^ s

/-- Python built-in rounding to an integer: half to even. -/
def roundHalfEvenInt (x : ℚ) : ℤ :=
  if Int.fract x = 1 / 2 then (if ⌊x⌋ % 2 = 0 then ⌊x⌋ else ⌊x⌋ + 1) else round x

/-- Python `round(x, 1)`. -/
def pythonRound1 (x : ℚ) : ℚ := (roundHalfEvenInt (x * 10) : ℚ) / 10

/-- One row of the warehouse table `CHECKOUT_FUNNEL_V5`, restricted to the
columns the five queries read.  Every SQL column is nullable.  The fixed
30-day window predicate `CHECKOUT_CREATED_DT >= DATEADD(DAY, -30,
CURRENT_DATE())` is abstracted as the boolean `in_window`. -/
structure CheckoutRow where
  fico_score : Option ℤ
  total_amount : Option ℚ
  is_approved : Option ℤ
  term_length : Option ℤ
  is_confirmed : Option ℤ
  offered_apr1 : Option ℚ
  offered_plan1_length : Option ℤ
  offered_apr2 : Option ℚ
  offered_plan2_length : Option ℤ
  offered_apr3 : Option ℚ
  offered_plan3_length : Option ℤ
  in_window : Bool
deriving DecidableEq

/-- The FICO bucketing `CASE` shared by the FICO-dropoff and term-confirm
queries.  A `CASE` without `ELSE` yields SQL `NULL` when no branch fires,
hence the `Option String` result; the branch list is in source order. -/
def ficoBucket : Option ℤ → Option String
  | none => some "No Score"
  | some v =>
    if v < 580 then some "Poor (<580)"
    else if 580 ≤ v ∧ v < 670 then some "Fair (580-669)"
    else if 670 ≤ v ∧ v < 740 then some "Good (670-739)"
    else if 740 ≤ v ∧ v < 800 then some "Very Good (740-799)"
    else if 800 ≤ v then some "Exceptional (800+)"
    else none

/-- The AOV bucketing `CASE` of the AOV-dropoff query.  There is no
`IS NULL` branch and no `ELSE`: a null `TOTAL_AMOUNT` makes every
comparison `NULL`, so the `CASE` yields `NULL`. -/
def aovBucket : Option ℚ → Option String
  | none => none
  | some v =>
    if v < 150 then some "a. <$150"
    else if 150 ≤ v ∧ v < 500 then some "b. $150-$500"
    else if 500 ≤ v ∧ v < 1000 then some "c. $500-$1000"
    else if 1000 ≤ v then some "d. $1000+"
    else none

/-- The AOV bucketing `CASE` of the FICO×AOV matrix query (same bounds,
labels without the ordinal prefix, again no null branch and no `ELSE`). -/
def matrixAovBucket : Option ℚ → Option String
  | none => none
  | some v =>
    if v < 150 then some "<$150"
    else if 150 ≤ v ∧ v < 500 then some "$150-$500"
    else if 500 ≤ v ∧ v < 1000 then some "$500-$1000"
    else if 1000 ≤ v then some "$1000+"
    else none

/-- The FICO grouping `CASE` of the FICO×AOV matrix query.  It has an
catch-all `ELSE` branch labelled No Score, so it is total: a null score fails every
comparison and falls to the `ELSE`. -/
def ficoGroup : Option ℤ → String
  | none => "No Score"
  | some v =>
    if 740 ≤ v then "High FICO (740+)"
    else if 670 ≤ v ∧ v < 740 then "Good (670-739)"
    else if 580 ≤ v ∧ v < 670 then "Fair (580-669)"
    else if v < 580 then "Poor (<580)"
    else "No Score"

/-- SQL `COALESCE(CASE WHEN apr = 0 THEN len ELSE 0 END, 0)`: a null APR makes
the `WHEN` condition `NULL` so the `ELSE 0` fires; a zero APR with a null
plan length yields `NULL`, which `COALESCE` turns into 0. -/
def zeroAprTermLen (apr : Option ℚ) (len : Option ℤ) : ℤ :=
  match apr with
  | none => 0
  | some a => if a = 0 then (match len with | none => 0 | some l => l) else 0

/-- The `GREATEST` of the three coalesced 0%-APR plan lengths of a row. -/
def maxZeroAprLen (r : CheckoutRow) : ℤ :=
  max (zeroAprTermLen r.offered_apr1 r.offered_plan1_length)
    (max (zeroAprTermLen r.offered_apr2 r.offered_plan2_length)
      (zeroAprTermLen r.offered_apr3 r.offered_plan3_length))

/-- The 0%-APR bucketing `CASE`.  Its last branch is an `ELSE`, so it is
total and never yields `NULL`. -/
def zeroAprBucket (r : CheckoutRow) : String :=
  if maxZeroAprLen r = 0 then "a. No 0% APR"
  else if maxZeroAprLen r ≤ 6 then "b. 0% for 1-6 mo"
  else if maxZeroAprLen r ≤ 12 then "c. 0% for 7-12 mo"
  else "d. 0% for 13+ mo"

/-- SQL predicate `IS_APPROVED = 1` (a null value compares to `NULL`,
which a `CASE WHEN` treats as not satisfied). -/
def isApproved (r : CheckoutRow) : Bool := decide (r.is_approved = some 1)

/-- SQL predicate `TERM_LENGTH IS NOT NULL`. -/
def hasTerm (r : CheckoutRow) : Bool := decide (r.term_length ≠ none)

/-- SQL predicate `IS_CONFIRMED = 1`. -/
def isConfirmed (r : CheckoutRow) : Bool := decide (r.is_confirmed = some 1)

/-- SQL predicate `TOTAL_AMOUNT >= 1000` (false on a null amount). -/
def amountAtLeast1000 (r : CheckoutRow) : Bool :=
  match r.total_amount with
  | none => false
  | some v => decide (1000 ≤ v)

/-- Model of `SUM(CASE WHEN p THEN 1 ELSE 0 END)` over a group: the number of group
rows satisfying `p`, as the integer SQL produces. -/
def countIf {α : Type} (p : α → Bool) (g : List α) : ℤ := ((g.filter p).length : ℤ)

/-- Model of `ROUND(num * 100.0 / NULLIF(den, 0), s)`: `NULLIF` turns a zero
denominator into `NULL`, division by `NULL` is `NULL`, and `ROUND` of
`NULL` is `NULL`. -/
def nullifRatio (s : Nat) (num den : ℤ) : Option ℚ :=
  if den = 0 then none else some (roundSql s ((num : ℚ) * 100 / (den : ℚ)))

/-- Insertion step of the `ORDER BY` model: insert before the first
element of larger-or-equal key. -/
def insertRank {α : Type} (key : α → ℕ) (x : α) : List α → List α
  | [] => [x]
  | y :: ys => if key x ≤ key y then x :: y :: ys else y :: insertRank key x ys

/-- Model of `ORDER BY` on an integer sort key, as insertion sort.  All
uses in this file sort lists whose keys are pairwise distinct, so the
result is the unique key-sorted arrangement, as SQL guarantees. -/
def sortRank {α : Type} (key : α → ℕ) : List α → List α
  | [] => []
  | x :: xs => insertRank key x (sortRank key xs)

theorem insertRank_perm {α : Type} (key : α → ℕ) (x : α) (l : List α) :
    List.Perm (insertRank key x l) (x :: l) := by
  induction l with
  | nil => simp [insertRank]
  | cons y ys ih =>
    simp only [insertRank]
    split
    · exact List.Perm.refl _
    · exact (List.Perm.cons y ih).trans (List.Perm.swap x y ys)

theorem sortRank_perm {α : Type} (key : α → ℕ) (l : List α) :
    List.Perm (sortRank key l) l := by
  induction l with
  | nil => exact List.Perm.refl _
  | cons x xs ih =>
    exact (insertRank_perm key x (sortRank key xs)).trans (List.Perm.cons x ih)

theorem mem_sortRank {α : Type} {key : α → ℕ} {x : α} {l : List α} :
    x ∈ sortRank key l ↔ x ∈ l :=
  (sortRank_perm key l).mem_iff

theorem insertRank_sorted {α : Type} (key : α → ℕ) (x : α) (l : List α)
    (h : List.Sorted (fun a b => key a ≤ key b) l) :
    List.Sorted (fun a b => key a ≤ key b) (insertRank key x l) := by
  induction l with
  | nil => simp [insertRank]
  | cons y ys ih =>
    simp only [insertRank]
    split
    · refine List.sorted_cons.mpr ⟨?_, h⟩
      intro b hb
      rcases List.mem_cons.mp hb with hb1 | hb1
      · subst hb1; assumption
      · exact le_trans (by assumption) (List.rel_of_sorted_cons h b hb1)
    · rename_i hxy
      refine List.sorted_cons.mpr ⟨?_, ih (List.Sorted.of_cons h)⟩
      intro b hb
      have hbm := (insertRank_perm key x ys).mem_iff.mp hb
      rcases List.mem_cons.mp hbm with hb1 | hb1
      · subst hb1; omega
      · exact List.rel_of_sorted_cons h b hb1

theorem sortRank_sorted {α : Type} (key : α → ℕ) (l : List α) :
    List.Sorted (fun a b => key a ≤ key b) (sortRank key l) := by
  induction l with
  | nil => simp [sortRank]
  | cons x xs ih => exact insertRank_sorted key x (sortRank key xs) ih

theorem map_insertRank {α β : Type} (keyA : α → ℕ) (keyB : β → ℕ) (f : α → β)
    (hk : ∀ a, keyB (f a) = keyA a) (x : α) (l : List α) :
    (insertRank keyA x l).map f = insertRank keyB (f x) (l.map f) := by
  induction l with
  | nil => simp [insertRank]
  | cons y ys ih =>
    simp only [insertRank, List.map_cons, hk]
    split
    · simp
    · simp [ih]

theorem map_sortRank {α β : Type} (keyA : α → ℕ) (keyB : β → ℕ) (f : α → β)
    (hk : ∀ a, keyB (f a) = keyA a) (l : List α) :
    (sortRank keyA l).map f = sortRank keyB (l.map f) := by
  induction l with
  | nil => simp [sortRank]
  | cons x xs ih =>
    simp only [sortRank, List.map_cons]
    rw [map_insertRank keyA keyB f hk, ih]

/-- One result row of `FICO_DROPOFF_QUERY`. -/
structure FicoRow where
  fico_score_bucket : Option String
  total_checkouts : ℤ
  approved : ℤ
  term_selected : ℤ
  dropped_off : ℤ
  dropoff_pct : Option ℚ
deriving DecidableEq

/-- The `ORDER BY CASE FICO_SCORE_BUCKET ... END` sort key of the two
FICO-bucketed queries.  The `CASE` has no `ELSE`, so any other label
would sort as `NULL`, which Snowflake places last in ascending order;
rank 7 models that (the bucketing in fact only produces the six labels). -/
def ficoRank (b : Option String) : ℕ :=
  if b = some "Exceptional (800+)" then 1
  else if b = some "Very Good (740-799)" then 2
  else if b = some "Good (670-739)" then 3
  else if b = some "Fair (580-669)" then 4
  else if b = some "Poor (<580)" then 5
  else if b = some "No Score" then 6
  else 7

/-- The distinct `GROUP BY` keys of a row list, and the group of rows
carrying a given key. -/
def groupKeys {κ : Type} [DecidableEq κ] (key : CheckoutRow → κ)
    (rows : List CheckoutRow) : List κ :=
  (rows.map key).dedup

def groupOf {κ : Type} [DecidableEq κ] (key : CheckoutRow → κ)
    (rows : List CheckoutRow) (k : κ) : List CheckoutRow :=
  rows.filter (fun r => decide (key r = k))

/-- Aggregates of `FICO_DROPOFF_QUERY` for one group. -/
def mkFicoRow (k : Option String) (g : List CheckoutRow) : FicoRow where
  fico_score_bucket := k
  total_checkouts := (g.length : ℤ)
  approved := countIf isApproved g
  term_selected := countIf (fun r => isApproved r && hasTerm r) g
  dropped_off := countIf (fun r => isApproved r && !hasTerm r) g
  dropoff_pct :=
    nullifRatio 2 (countIf (fun r => isApproved r && !hasTerm r) g) (countIf isApproved g)

/-- Query `FICO_DROPOFF_QUERY` evaluated on a table: 30-day window filter,
`GROUP BY` the FICO bucket, aggregate, `ORDER BY` the bucket rank. -/
def ficoDropoffRows (t : List CheckoutRow) : List FicoRow :=
  let rows := t.filter (fun r => r.in_window)
  let key := fun r : CheckoutRow => ficoBucket r.fico_score
  sortRank (fun row => ficoRank row.fico_score_bucket)
    ((groupKeys key rows).map (fun k => mkFicoRow k (groupOf key rows k)))

/-- One result row of `TERM_CONFIRM_QUERY`. -/
structure TermConfirmRow where
  fico_score_bucket : Option String
  with_term_selected : ℤ
  confirmed_with_term : ℤ
  confirm_rate_with_term : Option ℚ
  without_term_selected : ℤ
  confirmed_without_term : ℤ
  confirm_rate_without_term : Option ℚ
deriving DecidableEq

/-- Aggregates of `TERM_CONFIRM_QUERY` for one group. -/
def mkTermConfirmRow (k : Option String) (g : List CheckoutRow) : TermConfirmRow where
  fico_score_bucket := k
  with_term_selected := countIf hasTerm g
  confirmed_with_term := countIf (fun r => hasTerm r && isConfirmed r) g
  confirm_rate_with_term :=
    nullifRatio 2 (countIf (fun r => hasTerm r && isConfirmed r) g) (countIf hasTerm g)
  without_term_selected := countIf (fun r => !hasTerm r) g
  confirmed_without_term := countIf (fun r => !hasTerm r && isConfirmed r) g
  confirm_rate_without_term :=
    nullifRatio 2 (countIf (fun r => !hasTerm r && isConfirmed r) g)
      (countIf (fun r => !hasTerm r) g)

/-- Query `TERM_CONFIRM_QUERY` evaluated on a table. -/
def termConfirmRows (t : List CheckoutRow) : List TermConfirmRow :=
  let rows := t.filter (fun r => r.in_window)
  let key := fun r : CheckoutRow => ficoBucket r.fico_score
  sortRank (fun row => ficoRank row.fico_score_bucket)
    ((groupKeys key rows).map (fun k => mkTermConfirmRow k (groupOf key rows k)))

/-- One result row of `AOV_DROPOFF_QUERY`. -/
structure AovRow where
  aov_bucket : Option String
  approved : ℤ
  dropped_off : ℤ
  dropoff_pct : Option ℚ
deriving DecidableEq

/-- The `ORDER BY 1` of the AOV query sorts the label strings; their ordinal
prefixes `a.`-`d.` make the lexical order the intended one, and a `NULL`
label sorts last. -/
def aovRank (b : Option String) : ℕ :=
  if b = some "a. <$150" then 1
  else if b = some "b. $150-$500" then 2
  else if b = some "c. $500-$1000" then 3
  else if b = some "d. $1000+" then 4
  else 5

/-- Aggregates of `AOV_DROPOFF_QUERY` for one group. -/
def mkAovRow (k : Option String) (g : List CheckoutRow) : AovRow where
  aov_bucket := k
  approved := countIf isApproved g
  dropped_off := countIf (fun r => isApproved r && !hasTerm r) g
  dropoff_pct :=
    nullifRatio 1 (countIf (fun r => isApproved r && !hasTerm r) g) (countIf isApproved g)

/-- Query `AOV_DROPOFF_QUERY` evaluated on a table. -/
def aovDropoffRows (t : List CheckoutRow) : List AovRow :=
  let rows := t.filter (fun r => r.in_window)
  let key := fun r : CheckoutRow => aovBucket r.total_amount
  sortRank (fun row => aovRank row.aov_bucket)
    ((groupKeys key rows).map (fun k => mkAovRow k (groupOf key rows k)))

/-- One result row of `ZERO_APR_QUERY`.  `COMPLETION_RATE` and
`DROPOFF_RATE` divide by `COUNT(*)` with no `NULLIF` guard; the
`COUNT(*)` of a group is always positive, so the division is total on reachable
rows (`ℚ` division is used; the zero-denominator case never arises and
is proved unreachable below). -/
structure ZeroAprRow where
  zero_apr_bucket : String
  total_approved : ℤ
  completed : ℤ
  dropped_off : ℤ
  completion_rate : ℚ
  dropoff_rate : ℚ
deriving DecidableEq

/-- The `ORDER BY 1` rank on the prefixed 0%-APR labels. -/
def zeroAprRank (b : String) : ℕ :=
  if b = "a. No 0% APR" then 1
  else if b = "b. 0% for 1-6 mo" then 2
  else if b = "c. 0% for 7-12 mo" then 3
  else if b = "d. 0% for 13+ mo" then 4
  else 5

/-- Aggregates of `ZERO_APR_QUERY` for one group. -/
def mkZeroAprRow (k : String) (g : List CheckoutRow) : ZeroAprRow where
  zero_apr_bucket := k
  total_approved := (g.length : ℤ)
  completed := countIf hasTerm g
  dropped_off := countIf (fun r => !hasTerm r) g
  completion_rate := roundSql 1 ((countIf hasTerm g : ℚ) * 100 / (g.length : ℚ))
  dropoff_rate := roundSql 1 ((countIf (fun r => !hasTerm r) g : ℚ) * 100 / (g.length : ℚ))

/-- Query `ZERO_APR_QUERY` evaluated on a table: window filter plus
`TOTAL_AMOUNT >= 1000 AND IS_APPROVED = 1`. -/
def zeroAprRows (t : List CheckoutRow) : List ZeroAprRow :=
  let rows := t.filter (fun r => r.in_window && amountAtLeast1000 r && isApproved r)
  sortRank (fun row => zeroAprRank row.zero_apr_bucket)
    ((groupKeys zeroAprBucket rows).map (fun k => mkZeroAprRow k (groupOf zeroAprBucket rows k)))

/-- One result row of `FICO_AOV_MATRIX_QUERY`. -/
structure MatrixRow where
  fico_group : String
  aov_bucket : Option String
  approved : ℤ
  dropped_off : ℤ
  dropoff_pct : Option ℚ
deriving DecidableEq

/-- The two-level `ORDER BY` of the matrix query, combined into one key
(first the FICO-group rank, then the AOV-bucket rank; a label outside
either `CASE` sorts as `NULL`, last). -/
def matrixRank (fg : String) (ab : Option String) : ℕ :=
  (if fg = "High FICO (740+)" then 1
   else if fg = "Good (670-739)" then 2
   else if fg = "Fair (580-669)" then 3
   else if fg = "Poor (<580)" then 4
   else 5) * 8 +
  (if ab = some "<$150" then 1
   else if ab = some "$150-$500" then 2
   else if ab = some "$500-$1000" then 3
   else if ab = some "$1000+" then 4
   else 5)

/-- Aggregates of `FICO_AOV_MATRIX_QUERY` for one group. -/
def mkMatrixRow (k : String × Option String) (g : List CheckoutRow) : MatrixRow where
  fico_group := k.1
  aov_bucket := k.2
  approved := countIf isApproved g
  dropped_off := countIf (fun r => isApproved r && !hasTerm r) g
  dropoff_pct :=
    nullifRatio 1 (countIf (fun r => isApproved r && !hasTerm r) g) (countIf isApproved g)

/-- Query `FICO_AOV_MATRIX_QUERY` evaluated on a table: window filter plus
`FICO_SCORE IS NOT NULL`, `GROUP BY 1, 2`. -/
def ficoAovMatrixRows (t : List CheckoutRow) : List MatrixRow :=
  let rows := t.filter (fun r => r.in_window && decide (r.fico_score ≠ none))
  let key := fun r : CheckoutRow => (ficoGroup r.fico_score, matrixAovBucket r.total_amount)
  sortRank (fun row => matrixRank row.fico_group row.aov_bucket)
    ((groupKeys key rows).map (fun k => mkMatrixRow k (groupOf key rows k)))

/-- Chart input of the FICO tab bar chart: the rows of the FICO result
whose bucket is not No Score. -/
def ficoChartRows (rows : List FicoRow) : List FicoRow :=
  rows.filter (fun r => decide (r.fico_score_bucket ≠ some "No Score"))

/-- One row of the FICO tab data table after column selection and
renaming (`FICO Bucket`, `Approved`, `Term Selected`, `Dropped Off`,
`Dropoff %`). -/
structure FicoDisplayRow where
  ficoBucketCol : Option String
  approvedCol : ℤ
  termSelectedCol : ℤ
  droppedOffCol : ℤ
  dropoffPctCol : Option ℚ
deriving DecidableEq

/-- The FICO tab data table: `df_fico[[...]].rename(...)` — a pure
column select/rename, keeping every row in order. -/
def ficoTableView (rows : List FicoRow) : List FicoDisplayRow :=
  rows.map (fun r =>
    ⟨r.fico_score_bucket, r.approved, r.term_selected, r.dropped_off, r.dropoff_pct⟩)

/-- One long-form row of the melted term-confirm chart data, after the
`Type` column is re-mapped to its display label. -/
structure MeltedRow where
  fico_score_bucket : Option String
  seriesType : String
  confirmation_rate : Option ℚ
deriving DecidableEq

/-- Chart input of the term-confirm grouped bar chart: the rows of the
term-confirm result whose bucket is not No Score, melted over the two
rate columns (pandas `melt` stacks one block per value column), then
the `Type` values mapped to display labels. -/
def confirmChartData (rows : List TermConfirmRow) : List MeltedRow :=
  let kept := rows.filter (fun r => decide (r.fico_score_bucket ≠ some "No Score"))
  kept.map (fun r => ⟨r.fico_score_bucket, "With Term Selected", r.confirm_rate_with_term⟩) ++
    kept.map (fun r => ⟨r.fico_score_bucket, "Without Term Selected", r.confirm_rate_without_term⟩)

/-- The term-confirm tab data table keeps all rows of `df_term_confirm`
(column select/rename only); this projection records which source row
each table row came from. -/
def termConfirmTableRows (rows : List TermConfirmRow) : List TermConfirmRow := rows

/-- Chart input of the AOV tab bar chart: `px.bar(df_aov, ...)` is fed
the whole result, unfiltered. -/
def aovChartRows (rows : List AovRow) : List AovRow := rows

/-- The AOV tab data table: `df_aov.rename(...)` keeps all rows. -/
def aovTableRows (rows : List AovRow) : List AovRow := rows

/-- Chart input of the 0%-APR tab bar chart: the whole `df_zero_apr`. -/
def zeroAprChartRows (rows : List ZeroAprRow) : List ZeroAprRow := rows

/-- The 0%-APR tab data table keeps all rows. -/
def zeroAprTableRows (rows : List ZeroAprRow) : List ZeroAprRow := rows

/-- Sum of the APPROVED column of the FICO result. -/
def totalApproved (rows : List FicoRow) : ℤ := (rows.map (fun r => r.approved)).sum

/-- Sum of the DROPPED_OFF column of the FICO result. -/
def totalDropped (rows : List FicoRow) : ℤ := (rows.map (fun r => r.dropped_off)).sum

/-- The summary metric `overall_dropoff = round(total_dropped /
total_approved * 100, 1)`.  The division is unguarded in the source;
when the approved column sums to zero the float division yields
NaN/infinity (an undefined value, shown as such), modelled as `none`. -/
def overallDropoff (rows : List FicoRow) : Option ℚ :=
  if totalApproved rows = 0 then none
  else some (pythonRound1 ((totalDropped rows : ℚ) / (totalApproved rows : ℚ) * 100))

/-- The fixed display row order the heatmap is reindexed to. -/
def matrixDisplayRowLabels : List String :=
  ["High FICO (740+)", "Good (670-739)", "Fair (580-669)", "Poor (<580)"]

/-- The fixed display column order selected from the pivot. -/
def matrixDisplayColLabels : List String :=
  ["<$150", "$150-$500", "$500-$1000", "$1000+"]

/-- Cell lookup of the pandas pivot of the matrix result on index
FICO_GROUP, columns AOV_BUCKET, values DROPOFF_PCT: the DROPOFF_PCT of
the unique unpivoted row with the given labels, `none` (NaN) when no
such row exists. -/
def pivotCell (df : List MatrixRow) (rl cl : String) : Option ℚ :=
  match df.find? (fun x => decide (x.fico_group = rl) && decide (x.aov_bucket = some cl)) with
  | some x => x.dropoff_pct
  | none => none

/-- The heatmap matrix: fixed axis labels and a cell table. -/
structure MatrixView where
  rowLabels : List String
  colLabels : List String
  cells : List (List (Option ℚ))
deriving DecidableEq

/-- The heatmap build: pivot, reindex the rows to the four display
labels (an absent row label yields a NaN row), then select the four
display columns.  pandas raises a `KeyError` when a selected column is
absent from the pivot — i.e. when an AOV label occurs in no unpivoted
row — so the build is fallible, modelled by `Option`. -/
def buildMatrixView (df : List MatrixRow) : Option MatrixView :=
  if matrixDisplayColLabels.all (fun cl => df.any (fun x => decide (x.aov_bucket = some cl))) then
    some
      { rowLabels := matrixDisplayRowLabels
        colLabels := matrixDisplayColLabels
        cells :=
          matrixDisplayRowLabels.map (fun rl =>
            matrixDisplayColLabels.map (fun cl => pivotCell df rl cl)) }
  else none

/-- A cache entry of `st.cache_data`: query text, cached result, fetch
time (seconds). -/
structure CacheEntry (α : Type) where
  queryText : String
  result : α
  fetchedAt : ℚ
deriving DecidableEq

/-- Valid-entry lookup: an entry serves a query iff its text matches and
it is younger than the ttl (`now - fetchedAt < ttl`); expired entries
are treated as absent. -/
def cacheLookup {α : Type} (cache : List (CacheEntry α)) (q : String) (now ttl : ℚ) :
    Option α :=
  match cache.find? (fun e => decide (e.queryText = q)) with
  | some e => if now - e.fetchedAt < ttl then some e.result else none
  | none => none

/-- The cached query runner `run_query` (`@st.cache_data(ttl=3600)`):
on a valid cached entry, return it without touching the warehouse;
otherwise execute the query against the data source `ds` and store the
result wholesale with the current time.  The returned flag records
whether `DataSource.execute` was called. -/
def run_query {α : Type} (ds : String → α) (cache : List (CacheEntry α)) (q : String)
    (now ttl : ℚ) : α × List (CacheEntry α) × Bool :=
  match cacheLookup cache q now ttl with
  | some v => (v, cache, false)
  | none =>
      (ds q, ⟨q, ds q, now⟩ :: cache.filter (fun e => decide (e.queryText ≠ q)), true)

/-- The ttl of `st.cache_data(ttl=3600)`. -/
def cacheTtl : ℚ := 3600

theorem countIf_and_split {α : Type} (p q : α → Bool) (g : List α) :
    countIf p g = countIf (fun r => p r && q r) g + countIf (fun r => p r && !q r) g := by
  induction g with
  | nil => simp [countIf]
  | cons x xs ih =>
    simp only [countIf, List.filter_cons] at ih ⊢
    cases hp : p x <;> cases hq : q x <;>
      simp [hp, hq, List.length_cons, ih] <;> omega

theorem countIf_length_split {α : Type} (q : α → Bool) (g : List α) :
    (g.length : ℤ) = countIf q g + countIf (fun r => !q r) g := by
  induction g with
  | nil => simp [countIf]
  | cons x xs ih =>
    simp only [countIf, List.filter_cons] at ih ⊢
    cases hq : q x <;> simp [hq, List.length_cons, ih] <;> omega

theorem countIf_nonneg {α : Type} (p : α → Bool) (g : List α) : 0 ≤ countIf p g := by
  simp [countIf]

/-- Every result row of a grouped query comes from one `GROUP BY` key. -/
theorem mem_grouped_query {β κ : Type} [DecidableEq κ] (rows : List CheckoutRow)
    (key : CheckoutRow → κ) (mk : κ → List CheckoutRow → β) (rk : β → ℕ) {r : β}
    (h : r ∈ sortRank rk ((groupKeys key rows).map (fun k => mk k (groupOf key rows k)))) :
    ∃ k, k ∈ groupKeys key rows ∧ r = mk k (groupOf key rows k) := by
  have h' := mem_sortRank.mp h
  obtain ⟨k, hk, hr⟩ := List.mem_map.mp h'
  exact ⟨k, hk, hr.symm⟩

/-- A `GROUP BY` group is never empty: its key was observed on some row. -/
theorem groupOf_ne_nil {κ : Type} [DecidableEq κ] (key : CheckoutRow → κ)
    (rows : List CheckoutRow) {k : κ} (hk : k ∈ groupKeys key rows) :
    groupOf key rows k ≠ [] := by
  obtain ⟨x, hx, hkey⟩ := List.mem_map.mp (List.mem_dedup.mp hk)
  have hxg : x ∈ groupOf key rows k := by
    simp only [groupOf, List.mem_filter, decide_eq_true_eq]
    exact ⟨hx, hkey⟩
  intro hnil
  rw [hnil] at hxg
  exact List.not_mem_nil x hxg

/-- Positive group size, as an integer. -/
theorem groupOf_length_pos {κ : Type} [DecidableEq κ] (key : CheckoutRow → κ)
    (rows : List CheckoutRow) {k : κ} (hk : k ∈ groupKeys key rows) :
    0 < ((groupOf key rows k).length : ℤ) := by
  have := groupOf_ne_nil key rows hk
  cases hg : groupOf key rows k with
  | nil => exact absurd hg this
  | cons a l => simp [hg]

theorem mem_ficoDropoffRows {t : List CheckoutRow} {r : FicoRow} (h : r ∈ ficoDropoffRows t) :
    ∃ k, k ∈ groupKeys (fun x => ficoBucket x.fico_score) (t.filter (fun x => x.in_window)) ∧
      r = mkFicoRow k
        (groupOf (fun x => ficoBucket x.fico_score) (t.filter (fun x => x.in_window)) k) :=
  mem_grouped_query _ _ _ _ h

theorem mem_termConfirmRows {t : List CheckoutRow} {r : TermConfirmRow}
    (h : r ∈ termConfirmRows t) :
    ∃ k, k ∈ groupKeys (fun x => ficoBucket x.fico_score) (t.filter (fun x => x.in_window)) ∧
      r = mkTermConfirmRow k
        (groupOf (fun x => ficoBucket x.fico_score) (t.filter (fun x => x.in_window)) k) :=
  mem_grouped_query _ _ _ _ h

theorem mem_aovDropoffRows {t : List CheckoutRow} {r : AovRow} (h : r ∈ aovDropoffRows t) :
    ∃ k, k ∈ groupKeys (fun x => aovBucket x.total_amount) (t.filter (fun x => x.in_window)) ∧
      r = mkAovRow k
        (groupOf (fun x => aovBucket x.total_amount) (t.filter (fun x => x.in_window)) k) :=
  mem_grouped_query _ _ _ _ h

theorem mem_zeroAprRows {t : List CheckoutRow} {r : ZeroAprRow} (h : r ∈ zeroAprRows t) :
    ∃ k, k ∈ groupKeys zeroAprBucket
        (t.filter (fun x => x.in_window && amountAtLeast1000 x && isApproved x)) ∧
      r = mkZeroAprRow k
        (groupOf zeroAprBucket
          (t.filter (fun x => x.in_window && amountAtLeast1000 x && isApproved x)) k) :=
  mem_grouped_query _ _ _ _ h

theorem mem_ficoAovMatrixRows {t : List CheckoutRow} {r : MatrixRow}
    (h : r ∈ ficoAovMatrixRows t) :
    ∃ k, k ∈ groupKeys (fun x => (ficoGroup x.fico_score, matrixAovBucket x.total_amount))
        (t.filter (fun x => x.in_window && decide (x.fico_score ≠ none))) ∧
      r = mkMatrixRow k
        (groupOf (fun x => (ficoGroup x.fico_score, matrixAovBucket x.total_amount))
          (t.filter (fun x => x.in_window && decide (x.fico_score ≠ none))) k) :=
  mem_grouped_query _ _ _ _ h

/-- C4: in every row of the FICO-dropoff result, the approved count is
exactly partitioned into term-selected and dropped-off counts:
`APPROVED = TERM_SELECTED + DROPPED_OFF`. -/
theorem fico_approved_partition (t : List CheckoutRow) :
    ∀ r ∈ ficoDropoffRows t, r.approved = r.term_selected + r.dropped_off := by
  intro r hr
  obtain ⟨k, hk, rfl⟩ := mem_ficoDropoffRows hr
  simpa [mkFicoRow] using
    countIf_and_split isApproved hasTerm
      (groupOf (fun x => ficoBucket x.fico_score) (t.filter (fun x => x.in_window)) k)

/-- Witness for C4 at a concrete one-row table. -/
theorem fico_approved_partition_witness :
    (⟨some "Good (670-739)", 1, 0, 0, 0, none⟩ : FicoRow) ∈
        ficoDropoffRows [⟨some 700, some 120, some 0, none, some 1, none, none, none, none,
          none, none, true⟩] ∧
      (⟨some "Good (670-739)", 1, 0, 0, 0, none⟩ : FicoRow).approved =
        (⟨some "Good (670-739)", 1, 0, 0, 0, none⟩ : FicoRow).term_selected +
          (⟨some "Good (670-739)", 1, 0, 0, 0, none⟩ : FicoRow).dropped_off := by
  refine ⟨by decide, ?_⟩
  exact fico_approved_partition
    [⟨some 700, some 120, some 0, none, some 1, none, none, none, none, none, none, true⟩]
    ⟨some "Good (670-739)", 1, 0, 0, 0, none⟩ (by decide)

/-- C2: in every result row of the five catalog queries, a zero (or, per
SQL, null — the `SUM`s here are never null on a nonempty group)
denominator makes the rounded ratio null, never zero and never an
error: the four `NULLIF`-guarded ratios are null whenever their
denominator count is zero, and the 0%-APR rates divide by the group's
`COUNT(*)`, which is always positive, so their denominator is never
zero or null at all. -/
theorem ratio_null_on_zero_denominator (t : List CheckoutRow) :
    (∀ r ∈ ficoDropoffRows t, r.approved = 0 → r.dropoff_pct = none) ∧
    (∀ r ∈ termConfirmRows t,
      (r.with_term_selected = 0 → r.confirm_rate_with_term = none) ∧
      (r.without_term_selected = 0 → r.confirm_rate_without_term = none)) ∧
    (∀ r ∈ aovDropoffRows t, r.approved = 0 → r.dropoff_pct = none) ∧
    (∀ r ∈ ficoAovMatrixRows t, r.approved = 0 → r.dropoff_pct = none) ∧
    (∀ r ∈ zeroAprRows t, 0 < r.total_approved) := by
  refine ⟨?_, ?_, ?_, ?_, ?_⟩
  · intro r hr
    obtain ⟨k, hk, rfl⟩ := mem_ficoDropoffRows hr
    intro h0
    simp only [mkFicoRow] at h0 ⊢
    simp only [nullifRatio]
    exact if_pos h0
  · intro r hr
    obtain ⟨k, hk, rfl⟩ := mem_termConfirmRows hr
    constructor <;> intro h0 <;> simp only [mkTermConfirmRow] at h0 ⊢ <;>
      simp only [nullifRatio] <;> exact if_pos h0
  · intro r hr
    obtain ⟨k, hk, rfl⟩ := mem_aovDropoffRows hr
    intro h0
    simp only [mkAovRow] at h0 ⊢
    simp only [nullifRatio]
    exact if_pos h0
  · intro r hr
    obtain ⟨k, hk, rfl⟩ := mem_ficoAovMatrixRows hr
    intro h0
    simp only [mkMatrixRow] at h0 ⊢
    simp only [nullifRatio]
    exact if_pos h0
  · intro r hr
    obtain ⟨k, hk, rfl⟩ := mem_zeroAprRows hr
    simpa [mkZeroAprRow] using groupOf_length_pos zeroAprBucket _ hk

/-- Witness for C2: a table whose single in-window row has a FICO score
but is not approved yields a FICO bucket row with zero approved rows
and a null dropoff percentage. -/
theorem ratio_null_on_zero_denominator_witness :
    (⟨some "Good (670-739)", 1, 0, 0, 0, none⟩ : FicoRow) ∈
        ficoDropoffRows [⟨some 700, some 120, none, none, some 1, none, none, none, none,
          none, none, true⟩] ∧
      (⟨some "Good (670-739)", 1, 0, 0, 0, none⟩ : FicoRow).dropoff_pct = none := by
  refine ⟨by decide, ?_⟩
  exact (ratio_null_on_zero_denominator
      [⟨some 700, some 120, none, none, some 1, none, none, none, none, none, none, true⟩]).1
    ⟨some "Good (670-739)", 1, 0, 0, 0, none⟩ (by decide) (by decide)

/-- C10: the summary metric divides the summed `DROPPED_OFF` column by
the summed `APPROVED` column with no zero guard: when the approved
column sums to zero the division produces no number (NaN/undefined,
modelled `none`) instead of the SQL null-on-zero-denominator behaviour
of the per-bucket ratios; for a nonzero sum it is the plain rounded
ratio. -/
theorem overallDropoff_unguarded (rows : List FicoRow) :
    (totalApproved rows = 0 → overallDropoff rows = none) ∧
    (totalApproved rows ≠ 0 →
      overallDropoff rows =
        some (pythonRound1 ((totalDropped rows : ℚ) / (totalApproved rows : ℚ) * 100))) := by
  constructor
  · intro h0
    simp only [overallDropoff]
    exact if_pos h0
  · intro h0
    simp only [overallDropoff]
    exact if_neg h0

/-- Witness for C10: a one-row FICO result with zero approved rows. -/
theorem overallDropoff_unguarded_witness :
    totalApproved [(⟨some "No Score", 3, 0, 0, 0, none⟩ : FicoRow)] = 0 ∧
      overallDropoff [(⟨some "No Score", 3, 0, 0, 0, none⟩ : FicoRow)] = none := by
  refine ⟨by decide, ?_⟩
  exact (overallDropoff_unguarded [⟨some "No Score", 3, 0, 0, 0, none⟩]).1 (by decide)

/-- C3: the first call for a query text absent from the cache fetches
from the warehouse and stores the result; any second call with the same
text at a time less than ttl after the first returns exactly the cached
result, leaves the cache unchanged, and does not call
`DataSource.execute` again. -/
theorem run_query_cache_hit {α : Type} (ds : String → α) (cache : List (CacheEntry α))
    (q : String) (t t' : ℚ)
    (hmiss : cache.find? (fun e => decide (e.queryText = q)) = none)
    (hfresh : t' - t < cacheTtl) :
    (run_query ds cache q t cacheTtl).2.2 = true ∧
    (run_query ds (run_query ds cache q t cacheTtl).2.1 q t' cacheTtl).1 =
      (run_query ds cache q t cacheTtl).1 ∧
    (run_query ds (run_query ds cache q t cacheTtl).2.1 q t' cacheTtl).2.2 = false ∧
    (run_query ds (run_query ds cache q t cacheTtl).2.1 q t' cacheTtl).2.1 =
      (run_query ds cache q t cacheTtl).2.1 := by
  have hstep : ∀ rest : List (CacheEntry α),
      run_query ds (⟨q, ds q, t⟩ :: rest) q t' cacheTtl = (ds q, ⟨q, ds q, t⟩ :: rest, false) := by
    intro rest
    have h2 : cacheLookup (⟨q, ds q, t⟩ :: rest) q t' cacheTtl = some (ds q) := by
      simp [cacheLookup, hfresh]
    simp [run_query, h2]
  have h1 : run_query ds cache q t cacheTtl =
      (ds q, ⟨q, ds q, t⟩ :: cache.filter (fun e => decide (e.queryText ≠ q)), true) := by
    simp only [run_query, cacheLookup, hmiss]
  rw [h1, hstep]
  exact ⟨rfl, rfl, rfl, rfl⟩

/-- Witness for C3: an empty cache, one query, two calls 10 seconds
apart. -/
theorem run_query_cache_hit_witness :
    (run_query (fun _ => (0 : ℤ)) [] "SELECT 1" 0 cacheTtl).2.2 = true ∧
    (run_query (fun _ => (0 : ℤ))
        (run_query (fun _ => (0 : ℤ)) [] "SELECT 1" 0 cacheTtl).2.1 "SELECT 1" 10 cacheTtl).1 =
      (run_query (fun _ => (0 : ℤ)) [] "SELECT 1" 0 cacheTtl).1 ∧
    (run_query (fun _ => (0 : ℤ))
        (run_query (fun _ => (0 : ℤ)) [] "SELECT 1" 0 cacheTtl).2.1 "SELECT 1" 10
        cacheTtl).2.2 = false := by
  have h := run_query_cache_hit (fun _ => (0 : ℤ)) [] "SELECT 1" 0 10 (by simp)
    (by norm_num [cacheTtl])
  exact ⟨h.1, h.2.1, h.2.2.1⟩

/-- The FICO-query TabularResult of the end-to-end scenario: the two
given rows (55.56 percent is `5556/100`). -/
def scenarioFicoResult : List FicoRow :=
  [⟨some "Good (670-739)", 100, 90, 40, 50, some (5556 / 100)⟩,
   ⟨some "Poor (<580)", 20, 15, 3, 12, some 80⟩]

/-- C1: on the given two-row FICO result, the chart view filtered to
exclude "No Score" keeps both rows unchanged, and the displayed overall
dropoff rate equals `round((50+12)/(90+15)*100, 1)`. -/
theorem scenario_chart_and_metric :
    ficoChartRows scenarioFicoResult = scenarioFicoResult ∧
      overallDropoff scenarioFicoResult =
        some (pythonRound1 (((50 : ℚ) + 12) / ((90 : ℚ) + 15) * 100)) := by
  constructor
  · simp [ficoChartRows, scenarioFicoResult]
  · norm_num [overallDropoff, totalApproved, totalDropped, scenarioFicoResult]

/-- Rounding a nonneg-complement pair: `round x + round (1000 - x)` is
1000 except when the fractional part of `x` is exactly one half, where
both halves round up and the sum overshoots by one. -/
theorem round_pair_sum (x : ℚ) :
    round x + round (1000 - x) = if Int.fract x = 1 / 2 then 1001 else 1000 := by
  have hsplit : ((⌊x⌋ : ℚ)) + Int.fract x = x := Int.floor_add_fract x
  have hf0 : 0 ≤ Int.fract x := Int.fract_nonneg x
  have hf1 : Int.fract x < 1 := Int.fract_lt_one x
  rw [round_eq, round_eq]
  by_cases hf : Int.fract x = 1 / 2
  · rw [if_pos hf]
    have h1 : x + 1 / 2 = ((⌊x⌋ + 1 : ℤ) : ℚ) := by
      push_cast
      linarith [hsplit, hf]
    have h2 : 1000 - x + 1 / 2 = ((1000 - ⌊x⌋ : ℤ) : ℚ) := by
      push_cast
      linarith [hsplit, hf]
    rw [h1, h2, Int.floor_intCast, Int.floor_intCast]
    ring
  · rw [if_neg hf]
    rcases lt_or_gt_of_ne hf with hlt | hgt
    · have h1 : ⌊x + 1 / 2⌋ = ⌊x⌋ := by
        rw [Int.floor_eq_iff]
        constructor <;> [linarith [hsplit]; linarith [hsplit]]
      have h2 : ⌊1000 - x + 1 / 2⌋ = 1000 - ⌊x⌋ := by
        rw [Int.floor_eq_iff]
        push_cast
        constructor <;> [linarith [hsplit]; linarith [hsplit]]
      rw [h1, h2]
      ring
    · have h1 : ⌊x + 1 / 2⌋ = ⌊x⌋ + 1 := by
        rw [Int.floor_eq_iff]
        push_cast
        constructor <;> [linarith [hsplit]; linarith [hsplit]]
      have h2 : ⌊1000 - x + 1 / 2⌋ = 1000 - ⌊x⌋ - 1 := by
        rw [Int.floor_eq_iff]
        push_cast
        constructor <;> [linarith [hsplit]; linarith [hsplit]]
      rw [h1, h2]
      ring

/-- The two scale-1 rates of a complementary integer pair over a positive
total. -/
theorem roundSql_pair (C D T : ℤ) (hT : 0 < T) (hCD : C + D = T) :
    roundSql 1 ((C : ℚ) * 100 / (T : ℚ)) + roundSql 1 ((D : ℚ) * 100 / (T : ℚ)) =
      if Int.fract ((C : ℚ) * 1000 / (T : ℚ)) = 1 / 2 then 1001 / 10 else 100 := by
  have hT0 : (T : ℚ) ≠ 0 := Int.cast_ne_zero.mpr (ne_of_gt hT)
  have hD : (D : ℚ) = (T : ℚ) - (C : ℚ) := by
    have : D = T - C := by omega
    exact_mod_cast this
  have e1 : (C : ℚ) * 100 / (T : ℚ) * 10 ^ 1 = (C : ℚ) * 1000 / (T : ℚ) := by
    ring
  have e2 : (D : ℚ) * 100 / (T : ℚ) * 10 ^ 1 = 1000 - (C : ℚ) * 1000 / (T : ℚ) := by
    rw [hD]
    field_simp
    ring
  simp only [roundSql, e1, e2]
  rw [div_add_div_same]
  rw [show ((round ((C : ℚ) * 1000 / (T : ℚ)) : ℚ) +
        (round (1000 - (C : ℚ) * 1000 / (T : ℚ)) : ℚ)) =
      ((round ((C : ℚ) * 1000 / (T : ℚ)) +
        round (1000 - (C : ℚ) * 1000 / (T : ℚ)) : ℤ) : ℚ) by push_cast; ring]
  rw [round_pair_sum]
  split_ifs with hf <;> norm_num

/-- Field characterisation of a 0%-APR result row: the counts partition
the positive group size and each rate is the scale-1 rounding of its
count over the total. -/
theorem zeroAprRow_fields {t : List CheckoutRow} {r : ZeroAprRow} (hr : r ∈ zeroAprRows t) :
    r.completed + r.dropped_off = r.total_approved ∧
    0 < r.total_approved ∧
    r.completion_rate = roundSql 1 ((r.completed : ℚ) * 100 / (r.total_approved : ℚ)) ∧
    r.dropoff_rate = roundSql 1 ((r.dropped_off : ℚ) * 100 / (r.total_approved : ℚ)) := by
  obtain ⟨k, hk, rfl⟩ := mem_zeroAprRows hr
  refine ⟨?_, ?_, rfl, rfl⟩
  · simpa [mkZeroAprRow] using
      (countIf_length_split hasTerm
        (groupOf zeroAprBucket
          (t.filter (fun x => x.in_window && amountAtLeast1000 x && isApproved x)) k)).symm
  · simpa [mkZeroAprRow] using groupOf_length_pos zeroAprBucket _ hk

/-- C8 (amended): in every 0%-APR result row, `COMPLETED + DROPPED_OFF =
TOTAL_APPROVED` and the denominator is positive; the two rounded rates
sum to exactly 100 except when `COMPLETED*1000/TOTAL_APPROVED` has
fractional part exactly one half, in which case SQL `ROUND` (half away
from zero) rounds both rates up and they sum to 100.1. -/
theorem zeroApr_rates_complementary (t : List CheckoutRow) :
    ∀ r ∈ zeroAprRows t,
      r.completed + r.dropped_off = r.total_approved ∧
      0 < r.total_approved ∧
      (Int.fract ((r.completed : ℚ) * 1000 / (r.total_approved : ℚ)) ≠ 1 / 2 →
        r.completion_rate + r.dropoff_rate = 100) ∧
      (Int.fract ((r.completed : ℚ) * 1000 / (r.total_approved : ℚ)) = 1 / 2 →
        r.completion_rate + r.dropoff_rate = 1001 / 10) := by
  intro r hr
  obtain ⟨hcd, hpos, hcr, hdr⟩ := zeroAprRow_fields hr
  have hsum := roundSql_pair r.completed r.dropped_off r.total_approved hpos hcd
  refine ⟨hcd, hpos, ?_, ?_⟩
  · intro hf
    rw [hcr, hdr, hsum, if_neg hf]
  · intro hf
    rw [hcr, hdr, hsum, if_pos hf]

/-- A fully-completed one-row 0%-APR input used as the C8 witness. -/
def zeroAprWitnessTable : List CheckoutRow :=
  [⟨some 700, some 1500, some 1, some 3, some 1, none, none, none, none, none, none, true⟩]

/-- Witness for C8: its single group has 1 of 1 completed, the fractional
part is 0, and the rates sum to 100. -/
theorem zeroApr_rates_complementary_witness :
    ∃ r ∈ zeroAprRows zeroAprWitnessTable, r.completion_rate + r.dropoff_rate = 100 := by
  obtain ⟨r, hr, hint⟩ : ∃ r ∈ zeroAprRows zeroAprWitnessTable,
      r.total_approved = 1 ∧ r.completed = 1 := by decide
  refine ⟨r, hr, (zeroApr_rates_complementary zeroAprWitnessTable r hr).2.2.1 ?_⟩
  rw [hint.1, hint.2]
  norm_num [Int.fract]

/-- One approved $1500 checkout row with the given term column. -/
def zeroAprCexRow (term : Option ℤ) : CheckoutRow :=
  ⟨some 700, some 1500, some 1, term, some 1, none, none, none, none, none, none, true⟩

/-- A 16-row input hitting the rounding half-boundary: 1 completed of 16. -/
def zeroAprCexTable : List CheckoutRow :=
  zeroAprCexRow (some 6) :: List.replicate 15 (zeroAprCexRow none)

/-- Counterexample to C8 as stated: the single result row of
`zeroAprCexTable` has a nonzero denominator but its rates are
`round(6.25, 1) = 6.3` and `round(93.75, 1) = 93.8`, summing to 100.1,
not 100. -/
theorem zeroApr_rates_sum_ne_100 :
    ∃ r ∈ zeroAprRows zeroAprCexTable,
      r.total_approved ≠ 0 ∧ r.completion_rate + r.dropoff_rate ≠ 100 := by
  obtain ⟨r, hr, hint⟩ : ∃ r ∈ zeroAprRows zeroAprCexTable,
      r.total_approved = 16 ∧ r.completed = 1 ∧ r.dropped_off = 15 := by decide
  obtain ⟨hcd, hpos, hcr, hdr⟩ := zeroAprRow_fields hr
  refine ⟨r, hr, by omega, ?_⟩
  rw [hcr, hdr, hint.1, hint.2.1, hint.2.2]
  norm_num [roundSql, round_eq]

/-- The six FICO bucket labels. -/
def ficoLabels : List String :=
  ["No Score", "Poor (<580)", "Fair (580-669)", "Good (670-739)", "Very Good (740-799)",
   "Exceptional (800+)"]

/-- The four AOV bucket labels of the AOV-dropoff query. -/
def aovLabels : List String := ["a. <$150", "b. $150-$500", "c. $500-$1000", "d. $1000+"]

/-- The four AOV bucket labels of the matrix query. -/
def matrixAovLabels : List String := ["<$150", "$150-$500", "$500-$1000", "$1000+"]

/-- The five FICO-group labels of the matrix query (the `ELSE`). -/
def ficoGroupLabels : List String :=
  ["High FICO (740+)", "Good (670-739)", "Fair (580-669)", "Poor (<580)", "No Score"]

/-- The four 0%-APR bucket labels. -/
def zeroAprLabels : List String :=
  ["a. No 0% APR", "b. 0% for 1-6 mo", "c. 0% for 7-12 mo", "d. 0% for 13+ mo"]

theorem ficoBucket_total (s : Option ℤ) : ∃ l ∈ ficoLabels, ficoBucket s = some l := by
  match s with
  | none => exact ⟨"No Score", by decide, rfl⟩
  | some v =>
    simp only [ficoBucket]
    split_ifs with h1 h2 h3 h4 h5
    · exact ⟨"Poor (<580)", by decide, rfl⟩
    · exact ⟨"Fair (580-669)", by decide, rfl⟩
    · exact ⟨"Good (670-739)", by decide, rfl⟩
    · exact ⟨"Very Good (740-799)", by decide, rfl⟩
    · exact ⟨"Exceptional (800+)", by decide, rfl⟩
    · exact absurd rfl (by omega : ¬ (0 : ℤ) = 0)

theorem aovBucket_total (v : ℚ) : ∃ l ∈ aovLabels, aovBucket (some v) = some l := by
  simp only [aovBucket]
  split_ifs with h1 h2 h3 h4
  · exact ⟨"a. <$150", by decide, rfl⟩
  · exact ⟨"b. $150-$500", by decide, rfl⟩
  · exact ⟨"c. $500-$1000", by decide, rfl⟩
  · exact ⟨"d. $1000+", by decide, rfl⟩
  · exact absurd rfl (by push_neg at h1 h2 h3 h4; exfalso; rcases lt_trichotomy v 1000 with h | h | h <;> simp_all <;> linarith : ¬ (0 : ℤ) = 0)

theorem matrixAovBucket_total (v : ℚ) :
    ∃ l ∈ matrixAovLabels, matrixAovBucket (some v) = some l := by
  simp only [matrixAovBucket]
  split_ifs with h1 h2 h3 h4
  · exact ⟨"<$150", by decide, rfl⟩
  · exact ⟨"$150-$500", by decide, rfl⟩
  · exact ⟨"$500-$1000", by decide, rfl⟩
  · exact ⟨"$1000+", by decide, rfl⟩
  · exact absurd rfl (by push_neg at h1 h2 h3 h4; exfalso; rcases lt_trichotomy v 1000 with h | h | h <;> simp_all <;> linarith : ¬ (0 : ℤ) = 0)

theorem ficoGroup_total (s : Option ℤ) : ficoGroup s ∈ ficoGroupLabels := by
  match s with
  | none => decide
  | some v =>
    simp only [ficoGroup]
    split_ifs <;> decide

theorem zeroAprBucket_total (r : CheckoutRow) : zeroAprBucket r ∈ zeroAprLabels := by
  simp only [zeroAprBucket]
  split_ifs <;> decide

/-- C9 (amended): the FICO bucketing of queries 1 and 2 is total over its
source column including null (null maps to "No Score"), the 0%-APR
bucketing and the FICO grouping of the matrix query are total via their
`ELSE` branches, and the AOV bucketing of queries 3 and 5 maps every
non-null amount to a label of its four-label vocabulary — but has no
null catch-all: a null `TOTAL_AMOUNT` receives a null bucket, not a
label. -/
theorem bucketing_totality :
    (∀ s : Option ℤ, ∃ l ∈ ficoLabels, ficoBucket s = some l) ∧
    (∀ r : CheckoutRow, zeroAprBucket r ∈ zeroAprLabels) ∧
    (∀ s : Option ℤ, ficoGroup s ∈ ficoGroupLabels) ∧
    (∀ v : ℚ, ∃ l ∈ aovLabels, aovBucket (some v) = some l) ∧
    (∀ v : ℚ, ∃ l ∈ matrixAovLabels, matrixAovBucket (some v) = some l) ∧
    aovBucket none = none ∧ matrixAovBucket none = none :=
  ⟨ficoBucket_total, zeroAprBucket_total, ficoGroup_total, aovBucket_total,
    matrixAovBucket_total, rfl, rfl⟩

/-- A checkout row with a null `TOTAL_AMOUNT` inside the window. -/
def nullAmountRow : CheckoutRow :=
  ⟨none, none, some 1, none, none, none, none, none, none, none, none, true⟩

/-- Counterexample to C9 as stated: on a table with one null-amount row,
the AOV-dropoff result contains a row whose bucket label is null — the
AOV `CASE` has no catch-all branch for null source values. -/
theorem aov_bucket_null_row :
    ∃ r ∈ aovDropoffRows [nullAmountRow], r.aov_bucket = none := by
  decide

/-- C7 (amended): the "No Score" bucket is dropped from the FICO bar
chart input and from the term-confirm grouped-bar chart input (both are
filtered before charting), while every other chart receives its full
result and every data table keeps all rows. -/
theorem noScore_chart_filters (fr : List FicoRow) (tr : List TermConfirmRow)
    (ar : List AovRow) (zr : List ZeroAprRow) :
    (∀ r ∈ ficoChartRows fr, r.fico_score_bucket ≠ some "No Score") ∧
    (∀ r ∈ fr, r.fico_score_bucket ≠ some "No Score" → r ∈ ficoChartRows fr) ∧
    (∀ m ∈ confirmChartData tr, m.fico_score_bucket ≠ some "No Score") ∧
    (∀ r ∈ tr, r.fico_score_bucket ≠ some "No Score" →
      (⟨r.fico_score_bucket, "With Term Selected", r.confirm_rate_with_term⟩ : MeltedRow) ∈
          confirmChartData tr ∧
        (⟨r.fico_score_bucket, "Without Term Selected",
          r.confirm_rate_without_term⟩ : MeltedRow) ∈ confirmChartData tr) ∧
    aovChartRows ar = ar ∧
    zeroAprChartRows zr = zr ∧
    ficoTableView fr =
      fr.map (fun r =>
        ⟨r.fico_score_bucket, r.approved, r.term_selected, r.dropped_off, r.dropoff_pct⟩) ∧
    termConfirmTableRows tr = tr ∧ aovTableRows ar = ar ∧ zeroAprTableRows zr = zr := by
  refine ⟨?_, ?_, ?_, ?_, rfl, rfl, rfl, rfl, rfl, rfl⟩
  · intro r hr
    have := (List.mem_filter.mp hr).2
    simpa using this
  · intro r hr hne
    exact List.mem_filter.mpr ⟨hr, by simpa using hne⟩
  · intro m hm
    rcases List.mem_append.mp hm with hm1 | hm1 <;>
      obtain ⟨r, hrk, rfl⟩ := List.mem_map.mp hm1 <;>
      simpa using (List.mem_filter.mp hrk).2
  · intro r hr hne
    have hrk : r ∈ tr.filter (fun x => decide (x.fico_score_bucket ≠ some "No Score")) :=
      List.mem_filter.mpr ⟨hr, by simpa using hne⟩
    constructor
    · exact List.mem_append.mpr (Or.inl (List.mem_map.mpr ⟨r, hrk, rfl⟩))
    · exact List.mem_append.mpr (Or.inr (List.mem_map.mpr ⟨r, hrk, rfl⟩))

/-- A two-row term-confirm result with a "No Score" row. -/
def noScoreTermResult : List TermConfirmRow :=
  [⟨some "No Score", 0, 0, none, 0, 0, none⟩,
   ⟨some "Good (670-739)", 0, 0, none, 0, 0, none⟩]

/-- Counterexample to C7 as stated: the term-confirm chart input is also
filtered — its melted data contains no "No Score" entry even though the
underlying result has a "No Score" row, so the FICO bar chart is not
the only filtered chart. -/
theorem confirm_chart_drops_noScore :
    (∃ r ∈ noScoreTermResult, r.fico_score_bucket = some "No Score") ∧
      ∀ m ∈ confirmChartData noScoreTermResult, m.fico_score_bucket ≠ some "No Score" := by
  decide

/-- Witness for C7 (amended) at concrete inputs: the kept "Good" row
appears in the melted chart data. -/
theorem noScore_chart_filters_witness :
    (⟨some "Good (670-739)", "With Term Selected", none⟩ : MeltedRow) ∈
      confirmChartData noScoreTermResult := by
  exact ((noScore_chart_filters [] noScoreTermResult [] []).2.2.2.1
    ⟨some "Good (670-739)", 0, 0, none, 0, 0, none⟩ (by decide) (by decide)).1

theorem pivotCell_eq_of_mem {df : List MatrixRow} {x : MatrixRow} {cl : String}
    (hnd : (df.map (fun y => (y.fico_group, y.aov_bucket))).Nodup)
    (hx : x ∈ df) (hcl : x.aov_bucket = some cl) :
    pivotCell df x.fico_group cl = x.dropoff_pct := by
  induction df with
  | nil => exact absurd hx (List.not_mem_nil x)
  | cons y ys ih =>
    simp only [List.map_cons, List.nodup_cons] at hnd
    rcases List.mem_cons.mp hx with rfl | hx'
    · simp [pivotCell, List.find?_cons, hcl]
    · have hne : ¬(decide (y.fico_group = x.fico_group) &&
          decide (y.aov_bucket = some cl)) = true := by
        intro hcond
        simp only [Bool.and_eq_true, decide_eq_true_eq] at hcond
        refine hnd.1 ?_
        have : (y.fico_group, y.aov_bucket) = (x.fico_group, x.aov_bucket) := by
          rw [hcond.1, hcond.2, hcl]
        rw [this]
        exact List.mem_map.mpr ⟨x, hx', rfl⟩
      simp only [pivotCell, List.find?_cons] at ih ⊢
      rw [Bool.eq_false_iff.mpr hne]
      exact ih hnd.2 hx'

theorem pivotCell_eq_none {df : List MatrixRow} {rl cl : String}
    (h : ∀ x ∈ df, ¬(x.fico_group = rl ∧ x.aov_bucket = some cl)) :
    pivotCell df rl cl = none := by
  have hfind : df.find? (fun x => decide (x.fico_group = rl) && decide (x.aov_bucket = some cl)) =
      none := by
    rw [List.find?_eq_none]
    intro x hx
    simp only [Bool.and_eq_true, decide_eq_true_eq, not_and]
    intro h1 h2
    exact h x hx ⟨h1, h2⟩
  simp only [pivotCell, hfind]

/-- C6 (amended): the unpivoted matrix result has pairwise-distinct
(FICO_GROUP, AOV_BUCKET) pairs, and whenever every display column label
occurs in the unpivoted result the heatmap build succeeds with the
fixed axis orders; each cell equals the `DROPOFF_PCT` of its unique
source row when the pair is present and is null/blank when the pair is
absent.  (When a column label is entirely absent the build raises
instead of rendering blanks — see the counterexample.) -/
theorem matrix_pivot_lookup :
    (∀ t : List CheckoutRow,
      ((ficoAovMatrixRows t).map (fun x => (x.fico_group, x.aov_bucket))).Nodup) ∧
    ∀ df : List MatrixRow,
      (df.map (fun x => (x.fico_group, x.aov_bucket))).Nodup →
      (∀ cl ∈ matrixDisplayColLabels, ∃ x ∈ df, x.aov_bucket = some cl) →
      ∃ M, buildMatrixView df = some M ∧
        M.rowLabels = matrixDisplayRowLabels ∧
        M.colLabels = matrixDisplayColLabels ∧
        M.cells = matrixDisplayRowLabels.map (fun rl =>
          matrixDisplayColLabels.map (fun cl => pivotCell df rl cl)) ∧
        (∀ x ∈ df, ∀ cl, x.aov_bucket = some cl →
          pivotCell df x.fico_group cl = x.dropoff_pct) ∧
        (∀ rl cl, (∀ x ∈ df, ¬(x.fico_group = rl ∧ x.aov_bucket = some cl)) →
          pivotCell df rl cl = none) := by
  constructor
  · intro t
    have hperm :
        ((ficoAovMatrixRows t).map (fun x => (x.fico_group, x.aov_bucket))).Perm
          (((groupKeys (fun x => (ficoGroup x.fico_score, matrixAovBucket x.total_amount))
              (t.filter (fun x => x.in_window && decide (x.fico_score ≠ none)))).map
            (fun k => mkMatrixRow k
              (groupOf (fun x => (ficoGroup x.fico_score, matrixAovBucket x.total_amount))
                (t.filter (fun x => x.in_window && decide (x.fico_score ≠ none))) k))).map
            (fun x => (x.fico_group, x.aov_bucket))) :=
      (sortRank_perm _ _).map _
    refine hperm.nodup_iff.mpr ?_
    rw [List.map_map]
    have : ((fun x : MatrixRow => (x.fico_group, x.aov_bucket)) ∘
        (fun k => mkMatrixRow k
          (groupOf (fun x => (ficoGroup x.fico_score, matrixAovBucket x.total_amount))
            (t.filter (fun x => x.in_window && decide (x.fico_score ≠ none))) k))) =
        fun k : String × Option String => k := by
      funext k
      simp [mkMatrixRow]
    rw [this, List.map_id']
    exact List.nodup_dedup _
  · intro df hnd hcols
    have hcond : matrixDisplayColLabels.all
        (fun cl => df.any (fun x => decide (x.aov_bucket = some cl))) = true := by
      rw [List.all_eq_true]
      intro cl hcl
      rw [List.any_eq_true]
      obtain ⟨x, hx, hxcl⟩ := hcols cl hcl
      exact ⟨x, hx, by simpa using hxcl⟩
    refine ⟨⟨matrixDisplayRowLabels, matrixDisplayColLabels,
        matrixDisplayRowLabels.map (fun rl =>
          matrixDisplayColLabels.map (fun cl => pivotCell df rl cl))⟩, ?_, rfl, rfl, rfl, ?_, ?_⟩
    · simp only [buildMatrixView, hcond, if_true]
    · intro x hx cl hcl
      exact pivotCell_eq_of_mem hnd hx hcl
    · intro rl cl habs
      exact pivotCell_eq_none habs

/-- A one-row unpivoted matrix result whose only AOV label is `$1000+`. -/
def matrixCexDf : List MatrixRow := [⟨"High FICO (740+)", some "$1000+", 10, 5, none⟩]

/-- Counterexample to C6 as stated: on an unpivoted result in which an
AOV label (here `<$150`) occurs in no row, the column selection
`pivot[[...]]` raises a `KeyError`, so no matrix is built at all — the
pairs absent from the result are not rendered as blanks. -/
theorem matrix_build_fails_on_missing_column :
    matrixCexDf ≠ [] ∧ buildMatrixView matrixCexDf = none := by
  decide

/-- A four-row unpivoted result covering all four display columns. -/
def matrixWitnessDf : List MatrixRow :=
  [⟨"High FICO (740+)", some "<$150", 1, 0, none⟩,
   ⟨"High FICO (740+)", some "$150-$500", 1, 0, none⟩,
   ⟨"High FICO (740+)", some "$500-$1000", 1, 0, none⟩,
   ⟨"Good (670-739)", some "$1000+", 1, 0, none⟩]

/-- Witness for C6 (amended) at a concrete unpivoted result. -/
theorem matrix_pivot_lookup_witness :
    ∃ M, buildMatrixView matrixWitnessDf = some M ∧
      pivotCell matrixWitnessDf "Good (670-739)" "$1000+" = none ∧
      pivotCell matrixWitnessDf "Poor (<580)" "<$150" = none := by
  obtain ⟨M, hM, _, _, _, hcell, habs⟩ :=
    matrix_pivot_lookup.2 matrixWitnessDf (by decide) (by decide)
  refine ⟨M, hM, ?_, habs _ _ (by decide)⟩
  exact hcell ⟨"Good (670-739)", some "$1000+", 1, 0, none⟩ (by decide) "$1000+" rfl

/-- The display order the `ORDER BY CASE` clause of the FICO queries
establishes. -/
def ficoDisplayOrder : List (Option String) :=
  [some "Exceptional (800+)", some "Very Good (740-799)", some "Good (670-739)",
   some "Fair (580-669)", some "Poor (<580)", some "No Score"]

theorem ficoBucket_mem_display (s : Option ℤ) : ficoBucket s ∈ ficoDisplayOrder := by
  obtain ⟨l, hl, he⟩ := ficoBucket_total s
  rw [he]
  exact (by decide : ∀ l ∈ ficoLabels, some l ∈ ficoDisplayOrder) l hl

/-- Sorting a duplicate-free sublist of the six bucket labels by the
`ORDER BY` rank yields exactly the display order restricted to the
labels present. -/
theorem sortRank_eq_displayOrder (L : List (Option String)) (hnd : L.Nodup)
    (hsub : ∀ x ∈ L, x ∈ ficoDisplayOrder) :
    sortRank ficoRank L = ficoDisplayOrder.filter (fun b => decide (b ∈ L)) := by
  have hperm1 : (sortRank ficoRank L).Perm L := sortRank_perm _ _
  have hnd1 : (sortRank ficoRank L).Nodup := hperm1.nodup_iff.mpr hnd
  have hnd2 : (ficoDisplayOrder.filter (fun b => decide (b ∈ L))).Nodup :=
    List.Pairwise.filter _ (by decide : ficoDisplayOrder.Nodup)
  have hmem : ∀ a, a ∈ sortRank ficoRank L ↔
      a ∈ ficoDisplayOrder.filter (fun b => decide (b ∈ L)) := by
    intro a
    rw [mem_sortRank, List.mem_filter]
    simp only [decide_eq_true_eq]
    exact ⟨fun h => ⟨hsub a h, h⟩, fun h => h.2⟩
  have hperm : (sortRank ficoRank L).Perm
      (ficoDisplayOrder.filter (fun b => decide (b ∈ L))) :=
    (List.perm_ext_iff_of_nodup hnd1 hnd2).mpr hmem
  have hinj : ∀ a ∈ ficoDisplayOrder, ∀ b ∈ ficoDisplayOrder,
      ficoRank a = ficoRank b → a = b := by decide
  have hstrict1 : List.Pairwise (fun a b => ficoRank a < ficoRank b) (sortRank ficoRank L) := by
    have hpair := List.Pairwise.and (sortRank_sorted ficoRank L) hnd1
    refine hpair.imp_of_mem ?_
    intro a b ha hb hab
    have haD := hsub a (mem_sortRank.mp ha)
    have hbD := hsub b (mem_sortRank.mp hb)
    rcases lt_or_eq_of_le hab.1 with h | h
    · exact h
    · exact absurd (hinj a haD b hbD h) hab.2
  have hstrict2 : List.Pairwise (fun a b => ficoRank a < ficoRank b)
      (ficoDisplayOrder.filter (fun b => decide (b ∈ L))) :=
    List.Pairwise.sublist (List.filter_sublist _)
      (by decide : List.Pairwise (fun a b => ficoRank a < ficoRank b) ficoDisplayOrder)
  haveI : IsAntisymm (Option String) (fun a b => ficoRank a < ficoRank b) :=
    ⟨fun a b h1 h2 => absurd (lt_trans h1 h2) (lt_irrefl _)⟩
  exact List.eq_of_perm_of_sorted hperm hstrict1 hstrict2

/-- The bucket-label column of the FICO-dropoff result, in result
order: exactly the display order restricted to the buckets present in
the windowed input. -/
theorem ficoDropoffRows_map_bucket (t : List CheckoutRow) :
    (ficoDropoffRows t).map (fun r => r.fico_score_bucket) =
      ficoDisplayOrder.filter (fun b =>
        decide (b ∈ (t.filter (fun r => r.in_window)).map (fun r => ficoBucket r.fico_score))) := by
  have h1 : (ficoDropoffRows t).map (fun r => r.fico_score_bucket) =
      sortRank ficoRank
        (((groupKeys (fun x => ficoBucket x.fico_score) (t.filter (fun r => r.in_window))).map
          (fun k => mkFicoRow k
            (groupOf (fun x => ficoBucket x.fico_score) (t.filter (fun r => r.in_window)) k))).map
          (fun r => r.fico_score_bucket)) :=
    map_sortRank (fun row : FicoRow => ficoRank row.fico_score_bucket) ficoRank _ (fun _ => rfl) _
  rw [h1, List.map_map]
  have h2 : ((fun r : FicoRow => r.fico_score_bucket) ∘
      (fun k => mkFicoRow k
        (groupOf (fun x => ficoBucket x.fico_score) (t.filter (fun r => r.in_window)) k))) =
      fun k : Option String => k := by
    funext k
    simp [mkFicoRow]
  rw [h2, List.map_id']
  have h3 := sortRank_eq_displayOrder
    (groupKeys (fun x => ficoBucket x.fico_score) (t.filter (fun r => r.in_window)))
    (List.nodup_dedup _) ?_
  · rw [h3]
    refine List.filter_congr ?_
    intro b _
    simp only [groupKeys, decide_eq_decide]
    exact List.mem_dedup
  · intro x hx
    obtain ⟨r, _, hr⟩ := List.mem_map.mp (List.mem_dedup.mp hx)
    rw [← hr]
    exact ficoBucket_mem_display r.fico_score

theorem map_filter_comm {α β : Type} (f : α → β) (p : β → Bool) (l : List α) :
    (l.filter (fun a => p (f a))).map f = (l.map f).filter p := by
  induction l with
  | nil => rfl
  | cons a l ih =>
    simp only [List.filter_cons, List.map_cons]
    cases h : p (f a) <;> simp [h, ih]

/-- C5: for any arrangement of the warehouse table rows, the FICO rows
rendered to the user — the data table (a pure column select/rename of
the result) and the bar chart (the result minus "No Score") — appear
exactly in the fixed display order Exceptional, Very Good, Good, Fair,
Poor, No Score restricted to the buckets present: the `ORDER BY CASE`
rank makes the order independent of the input arrangement. -/
theorem fico_rendered_order (t u : List CheckoutRow) (hperm : t.Perm u) :
    (ficoTableView (ficoDropoffRows u)).map (fun d => d.ficoBucketCol) =
      ficoDisplayOrder.filter (fun b =>
        decide (b ∈ (t.filter (fun r => r.in_window)).map (fun r => ficoBucket r.fico_score))) ∧
    (ficoChartRows (ficoDropoffRows u)).map (fun r => r.fico_score_bucket) =
      ficoDisplayOrder.filter (fun b =>
        decide (b ≠ some "No Score") &&
          decide (b ∈ (t.filter (fun r => r.in_window)).map (fun r => ficoBucket r.fico_score))) := by
  have hmm : ∀ b : Option String,
      (b ∈ (u.filter (fun r => r.in_window)).map (fun r => ficoBucket r.fico_score)) ↔
        (b ∈ (t.filter (fun r => r.in_window)).map (fun r => ficoBucket r.fico_score)) :=
    fun b => ((hperm.filter _).map _).mem_iff.symm
  constructor
  · have htab : (ficoTableView (ficoDropoffRows u)).map (fun d => d.ficoBucketCol) =
        (ficoDropoffRows u).map (fun r => r.fico_score_bucket) := by
      simp [ficoTableView, List.map_map]
    rw [htab, ficoDropoffRows_map_bucket u]
    refine List.filter_congr ?_
    intro b _
    simp only [decide_eq_decide]
    exact hmm b
  · have hchart : (ficoChartRows (ficoDropoffRows u)).map (fun r : FicoRow => r.fico_score_bucket) =
        ((ficoDropoffRows u).map (fun r => r.fico_score_bucket)).filter
          (fun b => decide (b ≠ some "No Score")) :=
      map_filter_comm (fun r : FicoRow => r.fico_score_bucket)
        (fun b => decide (b ≠ some "No Score")) (ficoDropoffRows u)
    rw [hchart, ficoDropoffRows_map_bucket u, List.filter_filter]
    refine List.filter_congr ?_
    intro b _
    have := hmm b
    by_cases hb : b = some "No Score" <;> simp [hb, this]

/-- An in-window approved checkout with a Poor-bucket score. -/
def orderWitnessPoor : CheckoutRow :=
  ⟨some 500, some 120, some 1, some 3, some 1, none, none, none, none, none, none, true⟩

/-- An in-window approved checkout with an Exceptional-bucket score. -/
def orderWitnessExc : CheckoutRow :=
  ⟨some 810, some 120, some 1, none, some 1, none, none, none, none, none, none, true⟩

/-- Witness for C5: on a two-row table given in Exceptional-last order,
the rendered table is Exceptional first, Poor second. -/
theorem fico_rendered_order_witness :
    (ficoTableView (ficoDropoffRows [orderWitnessExc, orderWitnessPoor])).map
        (fun d => d.ficoBucketCol) =
      [some "Exceptional (800+)", some "Poor (<580)"] := by
  have h := (fico_rendered_order [orderWitnessPoor, orderWitnessExc]
    [orderWitnessExc, orderWitnessPoor]
    (List.Perm.swap orderWitnessExc orderWitnessPoor [])).1
  rw [h]
  decide
